import Mathlib

/-!
Shallow embedding of the `dhcpd` Ansible module (`src/network/dhcpd.py`).

The module's `main` is a straight-line dispatcher over the supplied
parameters and an OMAPI transport session.  We model:

* the parameter dictionary (`Params`) — `state` (default `'present'`,
  choices `present`/`absent`, the code at line 117 also tests for `None`),
  the truth value of `module.boolean(params['gather_facts'])`, and the two
  optional address strings;
* the pypureomapi session as an oracle (`Transport`): whether the
  constructor succeeds, and the four primitives `lookup_mac`, `lookup_ip`,
  `add_host`, `del_host`, each classified as success / `OmapiErrorNotFound`
  / other `OmapiError`;
* the observable result (`Outcome`): `module.exit_json(changed=...)`,
  the printed facts dictionary (`changed:false` plus `dhcp_ip`/`dhcp_mac`),
  `module.fail_json(msg=...)`, or an uncaught Python exception
  (`crashed`), together with the list of transport calls the run issued.

The `HAVE_PYPUREOMAPI` import guard is environment glue and is modelled as
always satisfied.
-/

namespace Dhcpd

/-- Result of a pypureomapi lookup primitive: the resolved address,
`OmapiErrorNotFound`, or any other `OmapiError`. -/
inductive LookupResult where
  | found (addr : String)
  | notFound
  | otherError
deriving DecidableEq, Repr

/-- Result of `add_host`: success, or an `OmapiError` of any kind
(line 160 catches the base class). -/
inductive AckResult where
  | ok
  | error
deriving DecidableEq, Repr

/-- Result of `del_host`: success, `OmapiErrorNotFound`, or any other
`OmapiError` (lines 177-180 distinguish the three). -/
inductive DelResult where
  | ok
  | notFound
  | otherError
deriving DecidableEq, Repr

/-- Oracle for the OMAPI transport session: connection outcome and the
behaviour of the four remote primitives. -/
structure Transport where
  connectOk : Bool
  lookupMac : String → LookupResult
  lookupIp : String → LookupResult
  addHost : String → String → AckResult
  delHost : String → DelResult

/-- The module parameters as seen by `main` after `AnsibleModule` parsing:
`state` keeps its `Option` type because line 117 tests `is None`;
`gather_facts` is the truth value `module.boolean` produces. -/
structure Params where
  state : Option String
  gather_facts : Bool
  mac_address : Option String
  ip_address : Option String

/-- One observable transport interaction, recorded in program order. -/
inductive Call where
  | connect
  | lookupMac (ip : String)
  | lookupIp (mac : String)
  | addHost (ip mac : String)
  | delHost (mac : String)
deriving DecidableEq, Repr

/-- Terminal result of a run of `main`. `factsJson c i m` is the printed
dictionary `\x7b"changed": c, "ansible_facts": \x7b"dhcp_ip": i,
"dhcp_mac": m\x7d\x7d` followed by `return 0`; `crashed` is an uncaught
Python exception escaping `main`. -/
inductive Outcome where
  | exitJson (changed : Bool)
  | factsJson (changed : Bool) (dhcp_ip dhcp_mac : String)
  | failJson (msg : String)
  | crashed
deriving DecidableEq, Repr

/-- Lines 174-180: `del_host(mac)` with `OmapiErrorNotFound` remapped to
`exit_json(changed=False)` and other `OmapiError` to a failure.  The block
is shared by the remove-by-mac and remove-by-ip paths. -/
def deleteHostStep (t : Transport) (calls : List Call) (mac : String) :
    Outcome × List Call :=
  match t.delHost mac with
  | .ok => (.exitJson true, calls ++ [Call.delHost mac])
  | .notFound => (.exitJson false, calls ++ [Call.delHost mac])
  | .otherError => (.failJson "Could not remove entry", calls ++ [Call.delHost mac])

/-- The body of `main` (lines 117-182 of `src/network/dhcpd.py`),
returning the terminal outcome and the ordered list of transport calls.
`module.fail_json` / `module.exit_json` terminate the run, so the
successive `if` statements of the source behave as the nested
conditionals here. -/
def main (p : Params) (t : Transport) : Outcome × List Call :=
  -- lines 117-119: state None or 'absent' requires exactly one address
  if (p.state = none ∨ p.state = some "absent") ∧
      (p.mac_address.isSome ^^ p.ip_address.isSome) = false then
    (.failJson "state=absent or gather_facts=true require exactly either one Hardware or one IP address", [])
  -- lines 120-122: state 'present' requires both addresses
  else if p.state = some "present" ∧
      ¬(p.mac_address.isSome = true ∧ p.ip_address.isSome = true) then
    (.failJson "state=present requires both an IP and a Hardware address", [])
  -- lines 124-127: pypureomapi.Omapi(...) constructor
  else if t.connectOk = false then
    (.failJson "Error connecting to dhcp server", [Call.connect])
  -- lines 130-153: gather_facts query branch; every path returns or raises
  else if p.gather_facts = true then
    match p.ip_address with
    | some ip =>
      -- lines 136-144: only OmapiErrorNotFound is caught
      match t.lookupMac ip with
      | .found mac => (.factsJson false ip mac, [Call.connect, Call.lookupMac ip])
      | .notFound => (.failJson "Entry not found", [Call.connect, Call.lookupMac ip])
      | .otherError => (.crashed, [Call.connect, Call.lookupMac ip])
    | none =>
      match p.mac_address with
      | some mac =>
        -- lines 145-153: only OmapiErrorNotFound is caught
        match t.lookupIp mac with
        | .found ip => (.factsJson false ip mac, [Call.connect, Call.lookupIp mac])
        | .notFound => (.failJson "Entry not found", [Call.connect, Call.lookupIp mac])
        | .otherError => (.crashed, [Call.connect, Call.lookupIp mac])
      | none =>
        -- lookup_ip(None): pypureomapi raises on a None address
        (.crashed, [Call.connect])
  -- lines 156-161: create branch
  else if p.state = some "present" then
    match p.ip_address, p.mac_address with
    | some ip, some mac =>
      match t.addHost ip mac with
      | .ok => (.exitJson true, [Call.connect, Call.addHost ip mac])
      | .error => (.failJson "Could not add entry", [Call.connect, Call.addHost ip mac])
    | _, _ =>
      -- unreachable: the line 120-122 check guarantees both are present;
      -- add_host with a None argument would raise
      (.crashed, [Call.connect])
  -- lines 164-180: remove branch
  else if p.state = some "absent" then
    match p.mac_address with
    | some mac => deleteHostStep t [Call.connect] mac
    | none =>
      match p.ip_address with
      | some ip =>
        -- lines 168-171: only OmapiErrorNotFound is caught here
        match t.lookupMac ip with
        | .found mac => deleteHostStep t [Call.connect, Call.lookupMac ip] mac
        | .notFound =>
          (.failJson "Could not lookup Hardware address for leased IP address",
            [Call.connect, Call.lookupMac ip])
        | .otherError => (.crashed, [Call.connect, Call.lookupMac ip])
      | none =>
        -- lines 172-173
        (.failJson "Removing a host entry requires exactly either one Hardware or one IP address",
          [Call.connect])
  else
    -- line 182
    (.failJson "No action specified!", [Call.connect])

/-- The spec's §7 error taxonomy. -/
inductive ErrorKind where
  | InvalidArguments
  | ConnectionFailed
  | LookupFailed
  | NotFound
  | CreateFailed
  | RemoveFailed
  | TransportError
deriving DecidableEq, Repr

/-- Classification of a terminal outcome by the spec's error taxonomy,
keyed on the module's failure messages.  Successful outcomes and crashes
carry no `ErrorKind`. -/
def errorKind : Outcome → Option ErrorKind
  | .failJson m =>
    if m = "state=absent or gather_facts=true require exactly either one Hardware or one IP address" then
      some .InvalidArguments
    else if m = "state=present requires both an IP and a Hardware address" then
      some .InvalidArguments
    else if m = "Removing a host entry requires exactly either one Hardware or one IP address" then
      some .InvalidArguments
    else if m = "Error connecting to dhcp server" then some .ConnectionFailed
    else if m = "Could not lookup Hardware address for leased IP address" then
      some .LookupFailed
    else if m = "Entry not found" then some .NotFound
    else if m = "Could not add entry" then some .CreateFailed
    else if m = "Could not remove entry" then some .RemoveFailed
    else none
  | _ => none

/-- A lease database as a list of (ip, mac) bindings. -/
abbrev Db : Type := List (String × String)

/-- Whether some binding in the database carries the given MAC address. -/
def macInDb (db : Db) (m : String) : Bool :=
  db.any fun e => e.2 == m

/-- Remove every binding with the given MAC address. -/
def eraseMac (db : Db) (m : String) : Db :=
  db.filter fun e => !(e.2 == m)

/-- A transport whose primitives behave as a lease authority over `db`:
lookups resolve through the database, `add_host` acknowledges, and
`del_host` succeeds exactly when the MAC is present. -/
def dbTransport (db : Db) : Transport where
  connectOk := true
  lookupMac := fun ip =>
    match db.find? (fun e => e.1 == ip) with
    | some e => .found e.2
    | none => .notFound
  lookupIp := fun mac =>
    match db.find? (fun e => e.2 == mac) with
    | some e => .found e.1
    | none => .notFound
  addHost := fun _ _ => .ok
  delHost := fun mac => if macInDb db mac then .ok else .notFound

/-- Parameters of a remove-by-MAC request. -/
def removeByMac (m : String) : Params :=
  { state := some "absent", gather_facts := false,
    mac_address := some m, ip_address := none }

/-- Parameters of a remove-by-IP request. -/
def removeByIp (ip : String) : Params :=
  { state := some "absent", gather_facts := false,
    mac_address := none, ip_address := some ip }

/-- Parameters of a create request. -/
def createReq (ip mac : String) : Params :=
  { state := some "present", gather_facts := false,
    mac_address := some mac, ip_address := some ip }

/-- Parameters of a query with both addresses supplied (so that the
line 120-122 check passes under the default `state='present'`). -/
def queryBoth (ip mac : String) : Params :=
  { state := some "present", gather_facts := true,
    mac_address := some mac, ip_address := some ip }

/-- The EXAMPLES invocation at line 81 of the source,
`dhcpd: gather_facts=true ip_address=10.0.0.10 server=dhcp.example.org`:
`state` keeps its declared default `'present'`. -/
def examplesQueryByIp : Params :=
  { state := some "present", gather_facts := true,
    mac_address := none, ip_address := some "10.0.0.10" }

/-- A transport whose post-connection primitives all fail with a generic
`OmapiError` (a transport error that is not not-found). -/
def otherErrT : Transport where
  connectOk := true
  lookupMac := fun _ => .otherError
  lookupIp := fun _ => .otherError
  addHost := fun _ _ => .error
  delHost := fun _ => .otherError

theorem macInDb_eraseMac (db : Db) (m : String) :
    macInDb (eraseMac db m) m = false := by
  simp [macInDb, eraseMac, List.any_filter]

/-- Claim C1 (counterexample): over the database-backed authority holding
the binding 10.0.0.10 ↔ 13:37:be:ef:00:00, the remove-by-IP request
Remove(ip=10.0.0.10) yields `changed=true`, but the same request issued
again — after the first call deleted the entry — fails with `LookupFailed`
(lines 168-171: the resolve step no longer finds the IP), refuting the
claim's "never a failure on the second call" for Remove requests supplied
by IP. -/
theorem c1_remove_idempotent_counterexample :
    (main (removeByIp "10.0.0.10")
        (dbTransport [("10.0.0.10", "13:37:be:ef:00:00")])).1 = .exitJson true ∧
    main (removeByIp "10.0.0.10")
        (dbTransport
          (eraseMac [("10.0.0.10", "13:37:be:ef:00:00")] "13:37:be:ef:00:00")) =
      (.failJson "Could not lookup Hardware address for leased IP address",
        [Call.connect, Call.lookupMac "10.0.0.10"]) ∧
    errorKind (main (removeByIp "10.0.0.10")
        (dbTransport
          (eraseMac [("10.0.0.10", "13:37:be:ef:00:00")] "13:37:be:ef:00:00"))).1 =
      some ErrorKind.LookupFailed := by
  decide

/-- Claim C1 (amended): a Remove whose `del_host` call reports not-found —
whether the request supplied the MAC directly or resolved it from the IP —
exits with `changed=false` and no error; issuing the same remove-by-MAC
request twice against a database-backed authority that held the entry
yields `changed=true` then `changed=false`; a remove-by-IP request issued
twice instead yields `changed=true` then a `LookupFailed` failure, because
the second run's resolve step no longer finds an entry for the IP. -/
theorem c1_remove_idempotent_amended (db : Db) (m ip : String)
    (hmac : macInDb db m = true)
    (hfind : ∃ e ∈ db, e.1 = ip)
    (hall : ∀ e ∈ db, e.1 = ip → e.2 = m) :
    (∀ t : Transport, t.connectOk = true → t.delHost m = .notFound →
      main (removeByMac m) t = (.exitJson false, [Call.connect, Call.delHost m]) ∧
      errorKind (main (removeByMac m) t).1 = none) ∧
    (∀ t : Transport, t.connectOk = true → t.lookupMac ip = .found m →
      t.delHost m = .notFound →
      main (removeByIp ip) t =
        (.exitJson false, [Call.connect, Call.lookupMac ip, Call.delHost m]) ∧
      errorKind (main (removeByIp ip) t).1 = none) ∧
    (main (removeByMac m) (dbTransport db)).1 = .exitJson true ∧
    (main (removeByMac m) (dbTransport (eraseMac db m))).1 = .exitJson false ∧
    (main (removeByIp ip) (dbTransport db)).1 = .exitJson true ∧
    errorKind (main (removeByIp ip) (dbTransport (eraseMac db m))).1 =
      some ErrorKind.LookupFailed := by
  have hlook : (dbTransport db).lookupMac ip = .found m := by
    have hsome : (db.find? (fun e => e.1 == ip)).isSome = true := by
      rw [List.find?_isSome]
      obtain ⟨e, he, hip⟩ := hfind
      exact ⟨e, he, by simp [hip]⟩
    obtain ⟨e', he'⟩ := Option.isSome_iff_exists.mp hsome
    have hp : (e'.1 == ip) = true := by
      have hq := List.find?_some he'
      simpa using hq
    have hmem : e' ∈ db := List.mem_of_find?_eq_some he'
    have h2 : e'.2 = m := hall e' hmem (by simpa using hp)
    simp [dbTransport, he', h2]
  have hnone : (dbTransport (eraseMac db m)).lookupMac ip = .notFound := by
    have hn : (eraseMac db m).find? (fun e => e.1 == ip) = none := by
      rw [List.find?_eq_none]
      intro a ha
      rw [eraseMac, List.mem_filter] at ha
      obtain ⟨hmem, hkeep⟩ := ha
      simp only [Bool.not_eq_true', beq_eq_false_iff_ne, ne_eq] at hkeep
      simp only [beq_iff_eq]
      intro h1
      exact hkeep (hall a hmem h1)
    simp [dbTransport, hn]
  have hdel : (dbTransport db).delHost m = .ok := by
    simp [dbTransport, hmac]
  have hco : (dbTransport db).connectOk = true := rfl
  refine ⟨?_, ?_, ?_, ?_, ?_, ?_⟩
  · intro t h1 h2
    have hm : main (removeByMac m) t =
        (.exitJson false, [Call.connect, Call.delHost m]) := by
      simp [main, removeByMac, deleteHostStep, h1, h2]
    exact ⟨hm, by rw [hm]; rfl⟩
  · intro t h1 h2 h3
    have hm : main (removeByIp ip) t =
        (.exitJson false, [Call.connect, Call.lookupMac ip, Call.delHost m]) := by
      simp [main, removeByIp, deleteHostStep, h1, h2, h3]
    exact ⟨hm, by rw [hm]; rfl⟩
  · simp [main, removeByMac, dbTransport, deleteHostStep, hmac]
  · simp [main, removeByMac, dbTransport, deleteHostStep, macInDb_eraseMac]
  · simp [main, removeByIp, deleteHostStep, hco, hlook, hdel]
  · have hm : main (removeByIp ip) (dbTransport (eraseMac db m)) =
        (.failJson "Could not lookup Hardware address for leased IP address",
          [Call.connect, Call.lookupMac ip]) := by
      simp [main, removeByIp, hnone]
      rfl
    rw [hm]
    rfl

theorem c1_remove_idempotent_amended_witness :
    (main (removeByMac "13:37:be:ef:00:00")
        (dbTransport [("10.0.0.10", "13:37:be:ef:00:00")])).1 = .exitJson true ∧
    (main (removeByMac "13:37:be:ef:00:00")
        (dbTransport
          (eraseMac [("10.0.0.10", "13:37:be:ef:00:00")] "13:37:be:ef:00:00"))).1 =
      .exitJson false :=
  ⟨(c1_remove_idempotent_amended [("10.0.0.10", "13:37:be:ef:00:00")]
      "13:37:be:ef:00:00" "10.0.0.10"
      (by decide) (by decide) (by decide)).2.2.1,
   (c1_remove_idempotent_amended [("10.0.0.10", "13:37:be:ef:00:00")]
      "13:37:be:ef:00:00" "10.0.0.10"
      (by decide) (by decide) (by decide)).2.2.2.1⟩

/-- Claim C2 (evaluation at the failing input): the module's own EXAMPLES
invocation `gather_facts=true ip_address=10.0.0.10` leaves `state` at its
default `'present'`, and the line 120-122 check then rejects it with
`InvalidArguments` even though exactly one address is present, before any
transport call. -/
theorem c2_query_default_state_rejected :
    main examplesQueryByIp (dbTransport []) =
      (.failJson "state=present requires both an IP and a Hardware address", []) ∧
    errorKind (main examplesQueryByIp (dbTransport [])).1 =
      some .InvalidArguments := by
  decide

/-- Claim C3: a remove-by-IP whose resolve lookup reports not-found fails
with `LookupFailed` and never invokes `del_host`. -/
theorem c3_remove_by_ip_lookup_notfound (t : Transport) (ip : String)
    (h1 : t.connectOk = true) (h2 : t.lookupMac ip = .notFound) :
    main (removeByIp ip) t =
      (.failJson "Could not lookup Hardware address for leased IP address",
        [Call.connect, Call.lookupMac ip]) ∧
    errorKind (main (removeByIp ip) t).1 = some .LookupFailed ∧
    ∀ m, Call.delHost m ∉ (main (removeByIp ip) t).2 := by
  have hm : main (removeByIp ip) t =
      (.failJson "Could not lookup Hardware address for leased IP address",
        [Call.connect, Call.lookupMac ip]) := by
    simp [main, removeByIp, h1, h2]
  refine ⟨hm, by rw [hm]; rfl, ?_⟩
  intro m
  rw [hm]
  simp

theorem c3_remove_by_ip_lookup_notfound_witness :
    main (removeByIp "10.0.0.10") (dbTransport []) =
      (.failJson "Could not lookup Hardware address for leased IP address",
        [Call.connect, Call.lookupMac "10.0.0.10"]) :=
  (c3_remove_by_ip_lookup_notfound (dbTransport []) "10.0.0.10" rfl rfl).1

/-- Claim C4 (counterexample): at Remove(ip=10.0.0.10) with a lookup that
fails with a generic transport error, the run does not produce a clean
failure of any `ErrorKind` — the uncaught `OmapiError` escapes `main`
(`crashed`), contradicting the claimed clean `TransportError` failure. -/
theorem c4_resolve_other_error_counterexample :
    (main (removeByIp "10.0.0.10") otherErrT).1 = .crashed ∧
    errorKind (main (removeByIp "10.0.0.10") otherErrT).1 = none := by
  decide

/-- Claim C4 (amended): a remove-by-IP whose resolve lookup fails with a
transport error other than not-found terminates with the uncaught
exception (no clean failure result), and `del_host` is never invoked. -/
theorem c4_resolve_other_error_crashes (t : Transport) (ip : String)
    (h1 : t.connectOk = true) (h2 : t.lookupMac ip = .otherError) :
    main (removeByIp ip) t = (.crashed, [Call.connect, Call.lookupMac ip]) := by
  simp [main, removeByIp, h1, h2]

theorem c4_resolve_other_error_crashes_witness :
    main (removeByIp "10.0.0.10") otherErrT =
      (.crashed, [Call.connect, Call.lookupMac "10.0.0.10"]) :=
  c4_resolve_other_error_crashes otherErrT "10.0.0.10" rfl rfl

/-- Claim C5: a Create request (`state='present'`) fails validation with
`InvalidArguments` if and only if the MAC address or the IP address is
absent. -/
theorem c5_create_validation (p : Params) (t : Transport)
    (hs : p.state = some "present") :
    errorKind (main p t).1 = some ErrorKind.InvalidArguments ↔
      (p.mac_address = none ∨ p.ip_address = none) := by
  rcases hmac : p.mac_address with _ | a
  · have hm : main p t =
        (.failJson "state=present requires both an IP and a Hardware address", []) := by
      simp [main, hs, hmac]
    rw [hm]
    simp [errorKind]
  · rcases hip : p.ip_address with _ | b
    · have hm : main p t =
          (.failJson "state=present requires both an IP and a Hardware address", []) := by
        simp [main, hs, hmac, hip]
      rw [hm]
      simp [errorKind]
    · have hne : ¬(errorKind (main p t).1 = some ErrorKind.InvalidArguments) := by
        cases hco : t.connectOk with
        | false => simp [main, errorKind, hs, hmac, hip, hco]
        | true =>
          cases hg : p.gather_facts with
          | true =>
            cases hl : t.lookupMac b with
            | found r => simp [main, errorKind, hs, hmac, hip, hco, hg, hl]
            | notFound => simp [main, errorKind, hs, hmac, hip, hco, hg, hl]
            | otherError => simp [main, errorKind, hs, hmac, hip, hco, hg, hl]
          | false =>
            cases ha : t.addHost b a with
            | ok => simp [main, errorKind, hs, hmac, hip, hco, hg, ha]
            | error => simp [main, errorKind, hs, hmac, hip, hco, hg, ha]
      simp [hne]

theorem c5_create_validation_witness :
    (createReq "10.0.0.10" "13:37:be:ef:00:00").state = some "present" ∧
    (errorKind (main (createReq "10.0.0.10" "13:37:be:ef:00:00") otherErrT).1 =
        some ErrorKind.InvalidArguments ↔
      ((createReq "10.0.0.10" "13:37:be:ef:00:00").mac_address = none ∨
        (createReq "10.0.0.10" "13:37:be:ef:00:00").ip_address = none)) :=
  ⟨rfl, c5_create_validation (createReq "10.0.0.10" "13:37:be:ef:00:00") otherErrT rfl⟩

/-- Claim C6: a validated Create request exits with `changed=true` when
`add_host` succeeds, fails with `CreateFailed` when `add_host` reports a
transport error, and never exits with `changed=false`. -/
theorem c6_create_outcomes (t : Transport) (ip mac : String) :
    (t.connectOk = true → t.addHost ip mac = .ok →
      main (createReq ip mac) t = (.exitJson true, [Call.connect, Call.addHost ip mac])) ∧
    (t.connectOk = true → t.addHost ip mac = .error →
      main (createReq ip mac) t =
        (.failJson "Could not add entry", [Call.connect, Call.addHost ip mac]) ∧
      errorKind (main (createReq ip mac) t).1 = some ErrorKind.CreateFailed) ∧
    (main (createReq ip mac) t).1 ≠ .exitJson false := by
  refine ⟨?_, ?_, ?_⟩
  · intro h1 h2
    simp [main, createReq, h1, h2]
  · intro h1 h2
    have hm : main (createReq ip mac) t =
        (.failJson "Could not add entry", [Call.connect, Call.addHost ip mac]) := by
      simp [main, createReq, h1, h2]
    exact ⟨hm, by rw [hm]; rfl⟩
  · cases hco : t.connectOk with
    | false => simp [main, createReq, hco]
    | true =>
      cases ha : t.addHost ip mac with
      | ok => simp [main, createReq, hco, ha]
      | error => simp [main, createReq, hco, ha]

theorem c6_create_outcomes_witness :
    main (createReq "10.0.0.10" "13:37:be:ef:00:00") (dbTransport []) =
      (.exitJson true,
        [Call.connect, Call.addHost "10.0.0.10" "13:37:be:ef:00:00"]) :=
  (c6_create_outcomes (dbTransport []) "10.0.0.10" "13:37:be:ef:00:00").1 rfl rfl

/-- Claim C7: every run that ends in the printed facts dictionary has
`changed=false` and pairs the supplied address with the resolved one:
query-by-IP pairs the supplied IP with the MAC `lookup_mac` resolved, and
query-by-MAC pairs the supplied MAC with the IP `lookup_ip` resolved. -/
theorem c7_query_success (p : Params) (t : Transport) (c : Bool) (i m : String)
    (h : (main p t).1 = .factsJson c i m) :
    c = false ∧
      ((p.ip_address = some i ∧ t.lookupMac i = .found m) ∨
       (p.ip_address = none ∧ p.mac_address = some m ∧ t.lookupIp m = .found i)) := by
  unfold main deleteHostStep at h
  repeat' split at h
  all_goals simp_all

/-- Parameters of a query-by-IP request with `state='absent'` (so that the
XOR validation at lines 117-119 passes). -/
def queryByIp (ip : String) : Params :=
  { state := some "absent", gather_facts := true,
    mac_address := none, ip_address := some ip }

theorem c7_query_success_witness :
    false = false ∧
      (((queryByIp "10.0.0.10").ip_address = some "10.0.0.10" ∧
          (dbTransport [("10.0.0.10", "13:37:be:ef:00:00")]).lookupMac "10.0.0.10" =
            .found "13:37:be:ef:00:00") ∨
        ((queryByIp "10.0.0.10").ip_address = none ∧
          (queryByIp "10.0.0.10").mac_address = some "13:37:be:ef:00:00" ∧
          (dbTransport [("10.0.0.10", "13:37:be:ef:00:00")]).lookupIp "13:37:be:ef:00:00" =
            .found "10.0.0.10")) :=
  c7_query_success (queryByIp "10.0.0.10")
    (dbTransport [("10.0.0.10", "13:37:be:ef:00:00")])
    false "10.0.0.10" "13:37:be:ef:00:00" (by decide)

/-- Claim C8: a request rejected by one of the two validation checks at
lines 117-122 is reported with `InvalidArguments` and an empty transport
trace: no connection is established and no primitive is invoked. -/
theorem c8_validation_no_network (p : Params) (t : Transport)
    (h : ((p.state = none ∨ p.state = some "absent") ∧
            (p.mac_address.isSome ^^ p.ip_address.isSome) = false) ∨
         (p.state = some "present" ∧
            ¬(p.mac_address.isSome = true ∧ p.ip_address.isSome = true))) :
    errorKind (main p t).1 = some ErrorKind.InvalidArguments ∧ (main p t).2 = [] := by
  rcases h with h | h
  · have hm : main p t =
        (.failJson "state=absent or gather_facts=true require exactly either one Hardware or one IP address", []) := by
      unfold main
      rw [if_pos h]
    rw [hm]
    exact ⟨rfl, rfl⟩
  · have h1 : ¬((p.state = none ∨ p.state = some "absent") ∧
        (p.mac_address.isSome ^^ p.ip_address.isSome) = false) := by
      rcases h with ⟨hs, _⟩
      simp [hs]
    have hm : main p t =
        (.failJson "state=present requires both an IP and a Hardware address", []) := by
      unfold main
      rw [if_neg h1, if_pos h]
    rw [hm]
    exact ⟨rfl, rfl⟩

theorem c8_validation_no_network_witness :
    errorKind (main examplesQueryByIp (dbTransport [])).1 =
        some ErrorKind.InvalidArguments ∧
      (main examplesQueryByIp (dbTransport [])).2 = [] :=
  c8_validation_no_network examplesQueryByIp (dbTransport [])
    (Or.inr ⟨rfl, by decide⟩)

/-- Claim C9: whenever `gather_facts` is true the run never invokes
`add_host` or `del_host`, whatever the `state` parameter is: every path of
lines 130-153 returns or raises before the create/remove branches. -/
theorem c9_gather_facts_never_mutates (p : Params) (t : Transport)
    (h : p.gather_facts = true) :
    (∀ i m, Call.addHost i m ∉ (main p t).2) ∧
    (∀ m, Call.delHost m ∉ (main p t).2) := by
  constructor
  · intro i m
    unfold main deleteHostStep
    simp only [h]
    repeat' split
    all_goals simp_all
  · intro m
    unfold main deleteHostStep
    simp only [h]
    repeat' split
    all_goals simp_all

theorem c9_gather_facts_never_mutates_witness :
    (∀ i m, Call.addHost i m ∉ (main (queryByIp "10.0.0.10") (dbTransport [])).2) ∧
    (∀ m, Call.delHost m ∉ (main (queryByIp "10.0.0.10") (dbTransport [])).2) :=
  c9_gather_facts_never_mutates (queryByIp "10.0.0.10") (dbTransport []) rfl

/-- Claim C10: a query with both addresses supplied performs the lookup by
IP only — the trace is exactly connect-then-`lookup_mac(ip)`, `lookup_ip`
is never invoked — and a successful outcome pairs the supplied IP with the
MAC the authority resolved, not the supplied MAC. -/
theorem c10_query_both_ip_wins (t : Transport) (i m : String)
    (h1 : t.connectOk = true) :
    (main (queryBoth i m) t).2 = [Call.connect, Call.lookupMac i] ∧
    (∀ m', Call.lookupIp m' ∉ (main (queryBoth i m) t).2) ∧
    (∀ r, t.lookupMac i = .found r →
      (main (queryBoth i m) t).1 = .factsJson false i r) := by
  have hm : ∀ r, t.lookupMac i = .found r →
      (main (queryBoth i m) t).1 = .factsJson false i r := by
    intro r hr
    simp [main, queryBoth, h1, hr]
  have htr : (main (queryBoth i m) t).2 = [Call.connect, Call.lookupMac i] := by
    cases hl : t.lookupMac i with
    | found r => simp [main, queryBoth, h1, hl]
    | notFound => simp [main, queryBoth, h1, hl]
    | otherError => simp [main, queryBoth, h1, hl]
  refine ⟨htr, ?_, hm⟩
  intro m'
  rw [htr]
  simp

theorem c10_query_both_ip_wins_witness :
    (main (queryBoth "10.0.0.10" "13:37:be:ef:00:00")
        (dbTransport [("10.0.0.10", "aa:aa:aa:aa:aa:aa")])).1 =
      .factsJson false "10.0.0.10" "aa:aa:aa:aa:aa:aa" :=
  (c10_query_both_ip_wins (dbTransport [("10.0.0.10", "aa:aa:aa:aa:aa:aa")])
      "10.0.0.10" "13:37:be:ef:00:00" rfl).2.2 "aa:aa:aa:aa:aa:aa" (by decide)

end Dhcpd
